import Mathlib

/-!
Shallow embedding of `src/vectormath2d/src/vectormath2d.cpp`.

The source is a single function:

```cpp
std::string dot2d(int x1, int y1, int x2, int y2) {
    int result = x1 * x2 + y1 * y2;
    spdlog::info("Computed 2D dot product: \x7b\x7d", result);
    return fmt::format("(\x7b\x7d,\x7b\x7d)·(\x7b\x7d,\x7b\x7d) = \x7b\x7d", x1, y1, x2, y2, result);
}
```

Modelling decisions:
* C++ `int` is a 32-bit signed integer; arithmetic is modelled over `Int`
  with every operation reduced by `wrap32` into the two's-complement range
  `[-2^31, 2^31)` (the behaviour of all mainstream targets on overflow).
* `fmt::format` (and the formatting inside `spdlog::info`) is modelled by a
  template interpreter `runFormat` over literal pieces and `\x7b\x7d`
  placeholders; integers render in decimal via `toString`.  A template with
  more placeholders than arguments fails (fmt throws), hence `Option`.
* `spdlog::info` appends a `LogEntry` (rendered message plus the argument
  values passed to the call) to an ambient log, modelled by explicit state
  passing of a `List LogEntry`.
-/

namespace VectorMath2D

/-- Smallest value of a 32-bit signed `int`. -/
def int32Min : Int := -(2 ^ 31)

/-- Largest value of a 32-bit signed `int`. -/
def int32Max : Int := 2 ^ 31 - 1

/-- The value `n` is representable as a 32-bit signed `int`. -/
def inRange32 (n : Int) : Prop := int32Min ≤ n ∧ n ≤ int32Max

instance (n : Int) : Decidable (inRange32 n) :=
  inferInstanceAs (Decidable (_ ∧ _))

/-- Two's-complement reduction of an integer into `[-2^31, 2^31)`:
the value a 32-bit `int` holds after an overflowing operation. -/
def wrap32 (n : Int) : Int := (n + 2 ^ 31) % 2 ^ 32 - 2 ^ 31

/-- One piece of a fmt format template: a literal chunk, or a `\x7b\x7d`
placeholder consuming the next argument. -/
inductive FmtPiece where
  | lit (s : String)
  | arg
deriving Repr, DecidableEq

/-- Interpreter for fmt-style formatting: renders the template pieces in
order, consuming one argument per placeholder (decimal rendering), and
fails like `fmt::format` throws when a placeholder has no argument left. -/
def runFormat : List FmtPiece → List Int → Option String
  | [], _ => some ""
  | FmtPiece.lit s :: ps, args => Option.map (fun t => s ++ t) (runFormat ps args)
  | FmtPiece.arg :: _, [] => none
  | FmtPiece.arg :: ps, a :: args => Option.map (fun t => toString a ++ t) (runFormat ps args)

/-- One message recorded by the logging library: the rendered text and the
argument values that were passed to the logging call. -/
structure LogEntry where
  message : String
  args : List Int
deriving Repr, DecidableEq

/-- Model of `spdlog::info(template, args...)`: formats the message and
appends it (with its arguments) to the ambient log. -/
def spdlogInfo (tmpl : List FmtPiece) (args : List Int) (log : List LogEntry) :
    Option (List LogEntry) :=
  Option.map (fun m => log ++ [⟨m, args⟩]) (runFormat tmpl args)

/-- The format template of the `spdlog::info` call in `dot2d`. -/
def infoTemplate : List FmtPiece :=
  [FmtPiece.lit "Computed 2D dot product: ", FmtPiece.arg]

/-- The format template of the `fmt::format` call in `dot2d`. -/
def dotTemplate : List FmtPiece :=
  [FmtPiece.lit "(", FmtPiece.arg, FmtPiece.lit ",", FmtPiece.arg,
   FmtPiece.lit ")·(", FmtPiece.arg, FmtPiece.lit ",", FmtPiece.arg,
   FmtPiece.lit ") = ", FmtPiece.arg]

/-- The value computed by `int result = x1 * x2 + y1 * y2;` in 32-bit
`int` arithmetic: each multiplication and the addition wrap. -/
def dot2dResult (x1 y1 x2 y2 : Int) : Int :=
  wrap32 (wrap32 (x1 * x2) + wrap32 (y1 * y2))

/-- Embedding of `dot2d`: computes `result`, performs the logging call,
then returns the formatted string, threading the log state explicitly. -/
def dot2d (x1 y1 x2 y2 : Int) (log : List LogEntry) :
    Option (String × List LogEntry) :=
  let result := dot2dResult x1 y1 x2 y2
  match spdlogInfo infoTemplate [result] log with
  | none => none
  | some log2 =>
    match runFormat dotTemplate [x1, y1, x2, y2, result] with
    | none => none
    | some s => some (s, log2)

/-- The string `dot2d` returns, as a closed-form concatenation. -/
def formatDot (x1 y1 x2 y2 r : Int) : String :=
  "(" ++ toString x1 ++ "," ++ toString y1 ++ ")·(" ++ toString x2 ++ ","
    ++ toString y2 ++ ") = " ++ toString r

/-- The message `dot2d` logs, as a closed-form concatenation. -/
def infoMessage (r : Int) : String :=
  "Computed 2D dot product: " ++ toString r

theorem dot2d_eq (x1 y1 x2 y2 : Int) (log : List LogEntry) :
    dot2d x1 y1 x2 y2 log =
      some (formatDot x1 y1 x2 y2 (dot2dResult x1 y1 x2 y2),
        log ++ [⟨infoMessage (dot2dResult x1 y1 x2 y2), [dot2dResult x1 y1 x2 y2]⟩]) := by
  simp [dot2d, spdlogInfo, runFormat, infoTemplate, dotTemplate, formatDot,
    infoMessage, String.append_assoc, String.append_empty]

example : dot2dResult 3 4 5 6 = 39 := by decide

example : dot2d 1 2 3 4 [] =
    some ("(1,2)·(3,4) = 11", [⟨"Computed 2D dot product: 11", [11]⟩]) := by
  decide

theorem wrap32_eq_of_inRange (n : Int) (h : inRange32 n) : wrap32 n = n := by
  simp only [inRange32, int32Min, int32Max, wrap32] at *
  omega

theorem wrap32_inRange (n : Int) : inRange32 (wrap32 n) := by
  simp only [inRange32, int32Min, int32Max, wrap32] at *
  omega

theorem wrap32_add (a b : Int) : wrap32 (wrap32 a + wrap32 b) = wrap32 (a + b) := by
  simp only [wrap32]
  omega

theorem wrap32_emod (n : Int) : wrap32 n % 2 ^ 32 = n % 2 ^ 32 := by
  simp only [wrap32]
  omega

theorem dot2dResult_eq_wrap (x1 y1 x2 y2 : Int) :
    dot2dResult x1 y1 x2 y2 = wrap32 (x1 * x2 + y1 * y2) :=
  wrap32_add _ _

theorem wrap32_ne_of_not_inRange (n : Int) (h : ¬ inRange32 n) : wrap32 n ≠ n :=
  fun he => h (he ▸ wrap32_inRange n)

/-- C1, counterexample: at `x1 = 65536, y1 = 0, x2 = 65536, y2 = 0` the
products fit in the claim only mathematically; the 32-bit computation
yields `0`, not the exact dot product `2^32`. -/
theorem dot2dResult_overflow_counterexample :
    dot2dResult 65536 0 65536 0 ≠ 65536 * 65536 + 0 * 0 := by
  decide

/-- C1 (amended): whenever `x1*x2`, `y1*y2` and their sum all fit in a
signed 32-bit `int`, the `result` that `dot2d` computes, logs and embeds
in its return string equals the exact 2D dot product `x1*x2 + y1*y2`. -/
theorem dot2dResult_exact_of_inRange (x1 y1 x2 y2 : Int)
    (h1 : inRange32 (x1 * x2)) (h2 : inRange32 (y1 * y2))
    (h3 : inRange32 (x1 * x2 + y1 * y2)) :
    dot2dResult x1 y1 x2 y2 = x1 * x2 + y1 * y2 := by
  rw [dot2dResult, wrap32_eq_of_inRange _ h1, wrap32_eq_of_inRange _ h2,
    wrap32_eq_of_inRange _ h3]

/-- C1, witness: the amended theorem applied at `(3,4)·(5,6) = 39`. -/
theorem dot2dResult_exact_of_inRange_witness :
    inRange32 ((3 : Int) * 5) ∧ inRange32 ((4 : Int) * 6) ∧
      inRange32 ((3 : Int) * 5 + 4 * 6) ∧ dot2dResult 3 4 5 6 = 3 * 5 + 4 * 6 :=
  ⟨by decide, by decide, by decide,
    dot2dResult_exact_of_inRange 3 4 5 6 (by decide) (by decide) (by decide)⟩

/-- C2 (confirmed): for every four inputs and any ambient log, `dot2d`
returns exactly the string
`({x1},{y1})·({x2},{y2}) = {r}` with each placeholder the decimal
rendering of the corresponding argument and `r` the computed dot product
(the value of the `int` expression `x1 * x2 + y1 * y2`). -/
theorem dot2d_returns_formatted_string (x1 y1 x2 y2 : Int) (log : List LogEntry) :
    Option.map Prod.fst (dot2d x1 y1 x2 y2 log) =
      some ("(" ++ toString x1 ++ "," ++ toString y1 ++ ")·(" ++ toString x2
        ++ "," ++ toString y2 ++ ") = " ++ toString (dot2dResult x1 y1 x2 y2)) := by
  rw [dot2d_eq]
  rfl

/-- C3 (confirmed): `dot2d` is deterministic and stateless: its returned
string is the same under any two ambient log states, and it is a function
of the four arguments alone (`formatDot` applied to them and the computed
result); the only state effect is appending one entry to the log it was
given. -/
theorem dot2d_deterministic_stateless (x1 y1 x2 y2 : Int)
    (log log' : List LogEntry) :
    Option.map Prod.fst (dot2d x1 y1 x2 y2 log) =
      Option.map Prod.fst (dot2d x1 y1 x2 y2 log') ∧
    Option.map Prod.fst (dot2d x1 y1 x2 y2 log) =
      some (formatDot x1 y1 x2 y2 (dot2dResult x1 y1 x2 y2)) := by
  rw [dot2d_eq, dot2d_eq]
  exact ⟨rfl, rfl⟩

/-- C4 (confirmed): `dot2d` is total with no failure branch of its own:
failure in the model can arise only from the formatting/logging library
calls (`none` from `runFormat`), and for every input and log state the
call returns `some` string. -/
theorem dot2d_total_isSome (x1 y1 x2 y2 : Int) (log : List LogEntry) :
    (dot2d x1 y1 x2 y2 log).isSome = true := by
  rw [dot2d_eq]
  rfl

/-- C5 (confirmed): the value `dot2d` computes is symmetric in its two
vector arguments, and the strings returned for the swapped calls differ
only in operand order: both end in `= {r}` for the same `r`. -/
theorem dot2d_symmetric (x1 y1 x2 y2 : Int) (log : List LogEntry) :
    dot2dResult x1 y1 x2 y2 = dot2dResult x2 y2 x1 y1 ∧
    ∃ r : Int,
      Option.map Prod.fst (dot2d x1 y1 x2 y2 log) =
        some (formatDot x1 y1 x2 y2 r) ∧
      Option.map Prod.fst (dot2d x2 y2 x1 y1 log) =
        some (formatDot x2 y2 x1 y1 r) := by
  have hsym : dot2dResult x1 y1 x2 y2 = dot2dResult x2 y2 x1 y1 := by
    simp [dot2dResult, mul_comm]
  refine ⟨hsym, dot2dResult x1 y1 x2 y2, ?_, ?_⟩
  · rw [dot2d_eq]
    rfl
  · rw [dot2d_eq, hsym]
    rfl

/-- C6, counterexample: at `x1 = 65536, y1 = 65536, x2 = 65536,
y2 = -65536` both products overflow 32-bit `int` (so the inputs are
outside the claimed range), yet the computed result `0` equals the exact
dot product: outside the range the computation does not always differ
from the exact value. -/
theorem dot2dResult_wrap_match_counterexample :
    ¬ (inRange32 ((65536 : Int) * 65536) ∧ inRange32 ((65536 : Int) * (-65536)) ∧
        inRange32 ((65536 : Int) * 65536 + 65536 * (-65536))) ∧
    dot2dResult 65536 65536 65536 (-65536) =
      65536 * 65536 + 65536 * (-65536) := by
  constructor
  · decide
  · decide

/-- C6 (amended): the arithmetic in `dot2d` is 32-bit `int` arithmetic:
when `x1*x2`, `y1*y2` and their sum all lie in signed 32-bit range the
computed result is the exact dot product; in general the computed result
is the exact dot product wrapped into `[-2^31, 2^31)` (congruent to it
modulo `2^32`), and it differs from the exact dot product whenever that
exact value itself lies outside the signed 32-bit range (though it can
coincide with it even when the intermediate products overflow). -/
theorem dot2dResult_int32_arithmetic (x1 y1 x2 y2 : Int) :
    ((inRange32 (x1 * x2) ∧ inRange32 (y1 * y2) ∧
        inRange32 (x1 * x2 + y1 * y2)) →
      dot2dResult x1 y1 x2 y2 = x1 * x2 + y1 * y2) ∧
    dot2dResult x1 y1 x2 y2 = wrap32 (x1 * x2 + y1 * y2) ∧
    dot2dResult x1 y1 x2 y2 % 2 ^ 32 = (x1 * x2 + y1 * y2) % 2 ^ 32 ∧
    (¬ inRange32 (x1 * x2 + y1 * y2) →
      dot2dResult x1 y1 x2 y2 ≠ x1 * x2 + y1 * y2) := by
  refine ⟨?_, dot2dResult_eq_wrap x1 y1 x2 y2, ?_, ?_⟩
  · rintro ⟨h1, h2, h3⟩
    rw [dot2dResult, wrap32_eq_of_inRange _ h1, wrap32_eq_of_inRange _ h2,
      wrap32_eq_of_inRange _ h3]
  · rw [dot2dResult_eq_wrap]
    exact wrap32_emod _
  · intro h
    rw [dot2dResult_eq_wrap]
    exact wrap32_ne_of_not_inRange _ h

/-- C6, witness: the amended theorem applied at an in-range input
`(3,4)·(5,6)` and at the overflowing input `(65536,1)·(65536,1)`. -/
theorem dot2dResult_int32_arithmetic_witness :
    dot2dResult 3 4 5 6 = 3 * 5 + 4 * 6 ∧
    dot2dResult 65536 1 65536 1 ≠ 65536 * 65536 + 1 * 1 :=
  ⟨(dot2dResult_int32_arithmetic 3 4 5 6).1 ⟨by decide, by decide, by decide⟩,
    (dot2dResult_int32_arithmetic 65536 1 65536 1).2.2.2 (by decide)⟩

/-- C7 (confirmed): the value passed to the logging call and the value in
the returned string agree: the single log entry added carries exactly the
argument list `[r]`, its message renders that same `r`, and the returned
string is the format with that same `r` in the final (after `=`)
position. -/
theorem dot2d_log_return_consistent (x1 y1 x2 y2 : Int) (log : List LogEntry) :
    ∃ (r : Int) (e : LogEntry),
      dot2d x1 y1 x2 y2 log = some (formatDot x1 y1 x2 y2 r, log ++ [e]) ∧
      e.args = [r] ∧ e.message = "Computed 2D dot product: " ++ toString r := by
  exact ⟨dot2dResult x1 y1 x2 y2,
    ⟨infoMessage (dot2dResult x1 y1 x2 y2), [dot2dResult x1 y1 x2 y2]⟩,
    dot2d_eq x1 y1 x2 y2 log, rfl, rfl⟩

/-- C8 (confirmed): `dot2d` terminates on every input: it is a loop-free,
recursion-free straight line (one arithmetic expression, one logging call
appending exactly one entry, one formatting call), and its shallow
embedding evaluates to a value for all inputs and log states. -/
theorem dot2d_terminates (x1 y1 x2 y2 : Int) (log : List LogEntry) :
    ∃ s : String,
      dot2d x1 y1 x2 y2 log =
        some (s, log ++ [⟨infoMessage (dot2dResult x1 y1 x2 y2),
          [dot2dResult x1 y1 x2 y2]⟩]) :=
  ⟨formatDot x1 y1 x2 y2 (dot2dResult x1 y1 x2 y2), dot2d_eq x1 y1 x2 y2 log⟩

end VectorMath2D
